import Mathlib

/-!
Verification development for the stock-market-anomaly-detection repository.

The definitions below are a shallow embedding of the Python sources:
  configs/websocket_config.py   (entitlement / channel resolution)
  src/data/stream_crypto.py     (CryptoDataProcessor anomaly detection)
  src/data/stream_data.py       (PolygonWebSocketClient dispatch,
                                 RealTimeDataProcessor anomaly detection)
  src/data/database.py          (store_market_data, store_anomaly)
  src/data/backfill_historical.py (store_to_database upsert)

Numeric market quantities (Python floats) are modelled as rationals; all
claims under study involve only exact small decimal values on which float
and rational arithmetic agree.  Python `datetime` values are modelled as
integers.  A Python function that can raise is modelled with `Except` or
an explicit error component.
-/

/-- `AssetType` enum of configs/websocket_config.py. -/
inductive AssetType where
  | stocks | crypto | forex | indices | options | futures
deriving DecidableEq, Repr

/-- The `.value` string of each `AssetType` member. -/
def AssetType.value : AssetType → String
  | .stocks => "stocks"
  | .crypto => "crypto"
  | .forex => "forex"
  | .indices => "indices"
  | .options => "options"
  | .futures => "futures"

/-- `SubscriptionTier` enum of configs/websocket_config.py. -/
inductive SubscriptionTier where
  | basic | starter | developer | advanced
deriving DecidableEq, Repr

/-- The `.value` string of each `SubscriptionTier` member. -/
def SubscriptionTier.value : SubscriptionTier → String
  | .basic => "basic"
  | .starter => "starter"
  | .developer => "developer"
  | .advanced => "advanced"

/-- `WEBSOCKET_ENABLED_TIERS` (websocket_config.py lines 34-38). -/
def websocketEnabledTiers : List SubscriptionTier :=
  [.starter, .developer, .advanced]

/-- `WEBSOCKET_BASE_URLS` (websocket_config.py lines 41-45): a dict keyed
by tier; `basic` has no entry, so lookup yields `none`. -/
def websocketBaseUrls : SubscriptionTier → Option String
  | .starter => some "wss://delayed.polygon.io"
  | .developer => some "wss://socket.polygon.io"
  | .advanced => some "wss://socket.polygon.io"
  | .basic => none

/-- `DATA_TYPES` (websocket_config.py lines 48-82): per asset type, the
insertion-ordered dict of channel code to description. -/
def dataTypesFor : AssetType → List (String × String)
  | .stocks =>
      [("A", "aggregates"), ("AM", "aggregates_min"), ("AS", "aggregates_sec"),
       ("T", "trades"), ("Q", "quotes")]
  | .crypto =>
      [("XA", "aggregates"), ("XAS", "aggregates_sec"), ("XT", "trades"),
       ("XQ", "quotes"), ("XL2", "level2")]
  | .forex => [("C", "quotes"), ("CA", "aggregates")]
  | .indices => [("I:SPX", "value"), ("V", "value"), ("A", "aggregates")]
  | .options => [("T", "trades"), ("Q", "quotes"), ("A", "aggregates")]
  | .futures => [("A", "aggregates"), ("T", "trades"), ("Q", "quotes")]

/-- `TIER_RESTRICTED_DATA_TYPES` (websocket_config.py lines 85-93):
`.get` on the dict, `none` for codes without a restriction entry. -/
def tierRestrictedDataTypes : String → Option SubscriptionTier
  | "AS" => some .developer
  | "XAS" => some .developer
  | "T" => some .developer
  | "XT" => some .developer
  | "Q" => some .developer
  | "XQ" => some .developer
  | "XL2" => some .advanced
  | _ => none

/-- The loaded `WebSocketConfig` state: `asset_subscriptions` built in
`__init__` (every asset type has exactly one tier, defaulting to basic),
plus the `POLYGON_WS_URL_*` environment overrides read by
`get_websocket_url` (lines 124-128). -/
structure WebSocketConfig where
  assetSubscriptions : AssetType → SubscriptionTier
  envUrlOverride : AssetType → Option String

/-- `WebSocketConfig.get_subscription_tier` (lines 118-120). -/
def getSubscriptionTier (cfg : WebSocketConfig) (a : AssetType) : SubscriptionTier :=
  cfg.assetSubscriptions a

/-- `WebSocketConfig.has_websocket_access` (lines 113-116). -/
def hasWebsocketAccess (cfg : WebSocketConfig) (a : AssetType) : Bool :=
  websocketEnabledTiers.contains (cfg.assetSubscriptions a)

/-- Rendering of an `Option String` inside a Python f-string
(`None` renders as the string "None"). -/
def optionStr : Option String → String
  | some s => s
  | none => "None"

/-- Error raised by `get_websocket_url` (line 133), carrying the pieces
interpolated into its message: the asset value and the tier value. -/
inductive WsUrlError where
  | notAvailable (assetValue : String) (tierValue : String)
deriving DecidableEq, Repr

/-- `WebSocketConfig.get_websocket_url` (lines 122-141): environment
override first; otherwise raise for a non-WebSocket tier; otherwise the
tier-keyed base URL — with the crypto/starter special case mapping to the
developer (real-time) base — suffixed with `/` and the asset value. -/
def getWebsocketUrl (cfg : WebSocketConfig) (a : AssetType) :
    Except WsUrlError String :=
  match cfg.envUrlOverride a with
  | some envUrl => .ok envUrl
  | none =>
    let tier := getSubscriptionTier cfg a
    if websocketEnabledTiers.contains tier then
      let baseUrl :=
        if a = .crypto ∧ tier = .starter then websocketBaseUrls .developer
        else websocketBaseUrls tier
      .ok (optionStr baseUrl ++ "/" ++ a.value)
    else
      .error (.notAvailable a.value tier.value)

/-- `tier_hierarchy.index` of `_tier_meets_requirement` (lines 161-169). -/
def tierIdx : SubscriptionTier → Nat
  | .basic => 0
  | .starter => 1
  | .developer => 2
  | .advanced => 3

/-- `WebSocketConfig._tier_meets_requirement` (lines 161-169). -/
def tierMeetsRequirement (cur req : SubscriptionTier) : Bool :=
  tierIdx req ≤ tierIdx cur

/-- `WebSocketConfig.get_available_data_types` (lines 143-159): keep the
full dict when restricted types are included, otherwise keep a code iff it
has no restriction entry or the asset's tier meets the required tier. -/
def getAvailableDataTypes (cfg : WebSocketConfig) (a : AssetType)
    (includeRestricted : Bool) : List (String × String) :=
  let allTypes := dataTypesFor a
  if includeRestricted then allTypes
  else
    let tier := getSubscriptionTier cfg a
    allTypes.filter fun p =>
      match tierRestrictedDataTypes p.1 with
      | none => true
      | some req => tierMeetsRequirement tier req

/-- Errors raised by `get_subscription_channels` (lines 174-175 and 194),
carrying the pieces interpolated into the messages.  Note line 194 puts
the asset's current tier value in the message. -/
inductive SubscriptionError where
  | noAccess (assetValue : String) (tierValue : String)
  | unauthorizedDataType (code : String) (assetValue : String) (tierValue : String)
deriving DecidableEq, Repr

/-- Per-asset default data types (websocket_config.py lines 179-187). -/
def defaultDataTypes : AssetType → List String
  | .stocks => ["A"]
  | .crypto => ["XA"]
  | .forex => ["C"]
  | .indices => ["V"]
  | .options => ["A"]
  | .futures => ["A"]

/-- `WebSocketConfig.get_subscription_channels` (lines 171-202): access
check, defaulting of `data_types`, validation of every code against the
available dict (raising at the first unavailable code, before any channel
string is built), then the codes-outer / symbols-inner product of
`{code}.{symbol}` tokens. -/
def getSubscriptionChannels (cfg : WebSocketConfig) (a : AssetType)
    (symbols : List String) (dataTypes : Option (List String)) :
    Except SubscriptionError (List String) :=
  if hasWebsocketAccess cfg a then
    let dts := dataTypes.getD (defaultDataTypes a)
    let available := getAvailableDataTypes cfg a false
    match dts.find? (fun dt => !(available.any (fun p => p.1 == dt))) with
    | some dt =>
        .error (.unauthorizedDataType dt a.value (getSubscriptionTier cfg a).value)
    | none =>
        .ok ((dts.map (fun dt => symbols.map (fun s => dt ++ "." ++ s))).flatten)
  else
    .error (.noAccess a.value (getSubscriptionTier cfg a).value)

/-! ### Anomaly detection: crypto path (stream_crypto.py) -/

/-- One entry of `self.recent_data[symbol]` appended by
`CryptoDataProcessor.process_data` (stream_crypto.py lines 278-282). -/
structure CryptoObs where
  volume : ℚ
  price : ℚ
  timestamp : ℚ
deriving DecidableEq, Repr

/-- The fields of an inbound crypto aggregate dict that
`CryptoDataProcessor.process_data` reads (lines 269-272). -/
structure CryptoAgg where
  pair : String
  v : ℚ
  c : ℚ
  s : ℚ
deriving DecidableEq, Repr

/-- The anomaly dict built by `check_volume_anomaly` (lines 306-314).
The Python dict also carries a wall-clock `timestamp`
(`datetime.now().isoformat()`) and the constant `market = "crypto"`;
the environment-dependent wall-clock string is not modelled here. -/
structure CryptoAnomaly where
  type : String
  symbol : String
  currentVolume : ℚ
  averageVolume : ℚ
  multiplier : ℚ
deriving DecidableEq, Repr

/-- `self.volume_threshold` of `CryptoDataProcessor` (line 254). -/
def cryptoVolumeThreshold : ℚ := 2

/-- `deque(maxlen=10)` append (line 253): keep the most recent 10. -/
def dequeAppend10 (xs : List CryptoObs) (x : CryptoObs) : List CryptoObs :=
  let ys := xs ++ [x]
  ys.drop (ys.length - 10)

/-- `sum(recent_volumes[:-1]) / len(recent_volumes[:-1])`, the rolling
average excluding the newest entry, shared by stream_crypto.py line 299
and stream_data.py line 367. -/
def rollingAvg (vols : List ℚ) : ℚ :=
  vols.dropLast.sum / (vols.dropLast.length : ℚ)

/-- `CryptoDataProcessor.check_volume_anomaly` (lines 290-329), applied to
the window `self.recent_data[symbol]` as it stands after the append:
return (no anomaly) when fewer than 5 entries; otherwise average the
entries excluding the newest; only when the average is positive compute
the multiplier and emit iff it reaches the crypto threshold. -/
def checkVolumeAnomaly (symbol : String) (window : List CryptoObs)
    (currentVolume : ℚ) : Option CryptoAnomaly :=
  let recentVolumes := window.map (·.volume)
  if recentVolumes.length < 5 then none
  else
    let avgVolume := rollingAvg recentVolumes
    if avgVolume > 0 then
      let multiplier := currentVolume / avgVolume
      if multiplier ≥ cryptoVolumeThreshold then
        some { type := "volume_spike", symbol := symbol,
               currentVolume := currentVolume, averageVolume := avgVolume,
               multiplier := multiplier }
      else none
    else none

/-- The per-symbol windows `self.recent_data` (`defaultdict` of deques,
line 253): a total function with empty default. -/
def CryptoState := String → List CryptoObs

/-- `CryptoDataProcessor.process_data` (lines 265-288): drop ticks with
non-positive volume or close price before they reach the window; append
the observation to the symbol's deque; then run the volume check. -/
def cryptoProcessData (st : CryptoState) (d : CryptoAgg) :
    CryptoState × Option CryptoAnomaly :=
  if d.v ≤ 0 ∨ d.c ≤ 0 then (st, none)
  else
    let window := dequeAppend10 (st d.pair) ⟨d.v, d.c, d.s / 1000⟩
    let stNext : CryptoState := fun sym => if sym = d.pair then window else st sym
    (stNext, checkVolumeAnomaly d.pair window d.v)

/-- Feed a sequence of volumes for one symbol through
`CryptoDataProcessor.process_data`, collecting the emitted anomalies. -/
def cryptoRunVolumes (vols : List ℚ) : CryptoState × List CryptoAnomaly :=
  vols.foldl
    (fun acc v =>
      let step := cryptoProcessData acc.1 { pair := "B", v := v, c := 1, s := 0 }
      (step.1, acc.2 ++ step.2.toList))
    ((fun _ => []), [])

/-! ### Anomaly detection: equities path (stream_data.py) -/

/-- The `processed_data` dict built by
`PolygonWebSocketClient._handle_aggregate_message` (lines 116-132). -/
structure EqAgg where
  timestamp : ℚ
  symbol : String
  openVal : ℚ
  high : ℚ
  low : ℚ
  close : ℚ
  volume : ℚ
  vwap : ℚ
  transactions : ℚ
deriving DecidableEq, Repr

/-- One value of `RealTimeDataProcessor.data_store` (lines 332-338). -/
structure EqStoreEntry where
  recentPrices : List ℚ
  recentVolumes : List ℚ
  lastPrice : ℚ
  lastVolume : ℚ
deriving DecidableEq, Repr

/-- The anomaly dict built by `_check_for_anomalies` (lines 371-379);
the nested `data` echo is the triggering aggregate itself. -/
structure EqAnomaly where
  type : String
  symbol : String
  timestamp : ℚ
  currentVolume : ℚ
  averageVolume : ℚ
  multiplier : ℚ
  data : EqAgg
deriving DecidableEq, Repr

/-- Python runtime error surfaced by the equities check. -/
inductive PyError where
  | zeroDivision
deriving DecidableEq, Repr

/-- `xs[-20:]` (stream_data.py lines 350-351). -/
def lastTwenty (xs : List ℚ) : List ℚ :=
  xs.drop (xs.length - 20)

/-- `RealTimeDataProcessor._check_for_anomalies` (lines 359-388), applied
to the symbol's store entry after the append: skip below 5 stored
volumes; average the stored volumes excluding the newest; fire when the
current volume strictly exceeds three times that average.  Building the
anomaly dict divides `current_volume / avg_volume`, which in Python
raises `ZeroDivisionError` when the average is zero — surfaced here as
`.error .zeroDivision`; there is no zero-average guard on this path. -/
def checkForAnomalies (entry : EqStoreEntry) (symbol : String) (d : EqAgg) :
    Except PyError (Option EqAnomaly) :=
  if entry.recentVolumes.length < 5 then .ok none
  else
    let currentVolume := d.volume
    let avgVolume := rollingAvg entry.recentVolumes
    if currentVolume > avgVolume * 3 then
      if avgVolume = 0 then .error .zeroDivision
      else
        .ok (some { type := "volume_spike", symbol := symbol,
                    timestamp := d.timestamp, currentVolume := currentVolume,
                    averageVolume := avgVolume,
                    multiplier := currentVolume / avgVolume, data := d })
    else .ok none

/-- `RealTimeDataProcessor.data_store` (line 310): symbol to entry. -/
def EqDataStore := String → Option EqStoreEntry

/-- `RealTimeDataProcessor._process_aggregate` (lines 327-357): create
the entry on first sight, append close and volume (no positivity
filter), trim both lists to the last 20, then check for anomalies; the
`last_price` and `last_volume` updates happen after the check, so an
exception escaping the check (caught later by the dispatcher) leaves the
appended window in place but those two fields stale.  The `Bool`
component records whether the check raised. -/
def processAggregate (store : EqDataStore) (d : EqAgg) :
    EqDataStore × Option EqAnomaly × Bool :=
  let sym := d.symbol
  let entry0 := (store sym).getD
    { recentPrices := [], recentVolumes := [], lastPrice := 0, lastVolume := 0 }
  let entry1 := { entry0 with
    recentPrices := lastTwenty (entry0.recentPrices ++ [d.close]),
    recentVolumes := lastTwenty (entry0.recentVolumes ++ [d.volume]) }
  match checkForAnomalies entry1 sym d with
  | .error _ =>
      ((fun s => if s = sym then some entry1 else store s), none, true)
  | .ok anomaly =>
      let entry2 := { entry1 with lastPrice := d.close, lastVolume := d.volume }
      ((fun s => if s = sym then some entry2 else store s), anomaly, false)

/-- Feed a sequence of volumes for one symbol through
`RealTimeDataProcessor._process_aggregate`, collecting the emitted
anomalies and the per-tick raised flags. -/
def eqRunVolumes (vols : List ℚ) : EqDataStore × List EqAnomaly × List Bool :=
  vols.foldl
    (fun acc v =>
      let d : EqAgg := { timestamp := 0, symbol := "A", openVal := 1, high := 1,
                         low := 1, close := 1, volume := v, vwap := 1,
                         transactions := 0 }
      let step := processAggregate acc.1 d
      (step.1, acc.2.1 ++ step.2.1.toList, acc.2.2 ++ [step.2.2]))
    ((fun _ => none), [], [])

/-! ### Handler fan-out (stream_data.py `_dispatch_data`) -/

/-- One iteration of the handler loop in
`PolygonWebSocketClient._dispatch_data` (lines 168-172): `try
handler(data) except` — a raising handler leaves the shared state as it
was and the loop continues. -/
def handlerStep {α σ E : Type} (d : α) (st : σ) (h : α → σ → Except E σ) : σ :=
  match h d st with
  | .ok st2 => st2
  | .error _ => st

/-- `PolygonWebSocketClient._dispatch_data` (lines 162-172): append the
message to `self.data_buffer`, then call every registered handler in
list order with that same message, catching exceptions per handler.
(`CryptoWebSocketClient.handle_crypto_data` lines 186-191 runs the same
per-handler loop.)  A handler is modelled as a function of the message
and the shared mutable state that either returns the updated state or
raises. -/
def dispatchData {α σ E : Type} (handlers : List (α → σ → Except E σ))
    (d : α) (buffer : List α) (s : σ) : List α × σ :=
  (buffer ++ [d], handlers.foldl (handlerStep d) s)

/-- `PolygonWebSocketClient.add_data_handler` (lines 64-66): registration
appends to the handler list. -/
def addDataHandler {α σ E : Type} (handlers : List (α → σ → Except E σ))
    (h : α → σ → Except E σ) : List (α → σ → Except E σ) :=
  handlers ++ [h]

/-! ### Persistence (database.py and backfill_historical.py) -/

/-- The `timestamp` entry of a market-data dict as `store_market_data`
(database.py lines 150-156) sees it: absent, a datetime value, or a
string.  `datetime.fromisoformat` either parses a string to a datetime
(`validStr t`, carrying the parsed value) or raises `ValueError`
(`invalidStr`, standing for any string fromisoformat rejects, e.g.
"not-a-date"). -/
inductive TsField where
  | absent
  | dt (t : ℤ)
  | validStr (t : ℤ)
  | invalidStr
deriving DecidableEq, Repr

/-- `timestamp` resolution of `store_market_data` (lines 150-156):
current time when absent, the carried value otherwise; `none` marks the
`ValueError` raised by `fromisoformat` on a malformed string. -/
def tsExtract (now : ℤ) : TsField → Option ℤ
  | .absent => some now
  | .dt t => some t
  | .validStr t => some t
  | .invalidStr => none

/-- The dict keys `store_market_data` reads (lines 158-163), each
optional: `c`/`close`, `v`/`volume`, `h`/`high`, `l`/`low`, `o`/`open`
(field `openField` here), `vw`/`vwap`, plus the `timestamp` entry. -/
structure MarketDataDict where
  timestamp : TsField
  c : Option ℚ
  close : Option ℚ
  v : Option ℚ
  volume : Option ℚ
  h : Option ℚ
  high : Option ℚ
  l : Option ℚ
  low : Option ℚ
  o : Option ℚ
  openField : Option ℚ
  vw : Option ℚ
  vwap : Option ℚ
deriving DecidableEq, Repr

/-- A row of the `market_data` table (schema at database.py lines 77-92).
The synthetic autoincrement id is the row's list position; `created_at`
is server-assigned and not modelled.  `rawData` is the serialized source
dict (`json.dumps`); the copy's datetime-to-isoformat normalization is
the identity under this model, which identifies a datetime with the
string parsing to it. -/
structure MarketRow where
  timestamp : ℤ
  symbol : String
  assetType : String
  price : ℚ
  volume : ℚ
  high : Option ℚ
  low : Option ℚ
  openCol : Option ℚ
  vwap : Option ℚ
  rawData : MarketDataDict
deriving DecidableEq, Repr

/-- `store_market_data` (database.py lines 135-185): resolve the
timestamp (a malformed string raises inside the `try`, is caught, and
the function returns `False` with nothing inserted); default missing
price and volume to 0 through the chained `.get` calls; insert the row
unconditionally; report `True`. -/
def storeMarketData (now : ℤ) (assetType symbol : String)
    (data : MarketDataDict) (db : List MarketRow) : Bool × List MarketRow :=
  match tsExtract now data.timestamp with
  | none => (false, db)
  | some ts =>
    (true, db ++ [{
        timestamp := ts, symbol := symbol, assetType := assetType,
        price := (data.c <|> data.close).getD 0,
        volume := (data.v <|> data.volume).getD 0,
        high := data.h <|> data.high,
        low := data.l <|> data.low,
        openCol := data.o <|> data.openField,
        vwap := data.vw <|> data.vwap,
        rawData := data }])

/-- One pandas row consumed by `store_to_database`
(backfill_historical.py lines 170-207); `vwap` is `none` where
`pd.notna` fails, in which case the close price substitutes. -/
structure OhlcvRow where
  openVal : ℚ
  high : ℚ
  low : ℚ
  close : ℚ
  volume : ℚ
  vwap : Option ℚ
deriving DecidableEq, Repr

/-- One iteration of the `store_to_database` loop (backfill_historical.py
lines 170-207): `SELECT COUNT(*) ... WHERE timestamp = ? AND symbol = ?`
and insert only when absent.  The inserted `raw_data` json carries
timestamp/open/high/low/close/volume/vwap keys. -/
def backfillInsertRow (db : List MarketRow) (ts : ℤ) (symbol : String)
    (r : OhlcvRow) : List MarketRow :=
  if db.any (fun row => row.timestamp == ts && row.symbol == symbol) then db
  else
    db ++ [{
      timestamp := ts, symbol := symbol, assetType := "crypto",
      price := r.close, volume := r.volume,
      high := some r.high, low := some r.low, openCol := some r.openVal,
      vwap := some (r.vwap.getD r.close),
      rawData := {
        timestamp := .validStr ts, c := none, close := some r.close,
        v := none, volume := some r.volume, h := none, high := some r.high,
        l := none, low := some r.low, o := none, openField := some r.openVal,
        vw := none, vwap := some (r.vwap.getD r.close) } }]

/-- `store_to_database` over a whole frame: the existence-checked insert
applied row by row. -/
def storeToDatabase (db : List MarketRow) (symbol : String)
    (rows : List (ℤ × OhlcvRow)) : List MarketRow :=
  rows.foldl (fun acc p => backfillInsertRow acc p.1 symbol p.2) db

/-- Number of `market_data` rows with a given (timestamp, symbol) key. -/
def countKey (db : List MarketRow) (ts : ℤ) (symbol : String) : ℕ :=
  (db.filter (fun row => row.timestamp == ts && row.symbol == symbol)).length

/-- The anomaly-dict keys `store_anomaly` reads through `.get`
(database.py lines 205-213).  The crypto detector's dict carries its
detection `timestamp` (an isoformat string) and `market`; the `.get`
defaults cover dicts missing any key. -/
structure AnomalyDict where
  type : Option String
  symbol : Option String
  currentVolume : Option ℚ
  currentValue : Option ℚ
  averageVolume : Option ℚ
  averageValue : Option ℚ
  multiplier : Option ℚ
  timestamp : Option String
  market : Option String
deriving DecidableEq, Repr

/-- A row of the `anomalies` table (schema at database.py lines 95-110).
`end_time` is not in the insert column list, so it is NULL; `status`
takes the schema default `detected`; `details` is the serialized input
dict. -/
structure AnomalyRow where
  startTime : ℤ
  endTime : Option ℤ
  symbol : String
  assetType : String
  anomalyType : String
  multiplier : ℚ
  currentValue : ℚ
  averageValue : ℚ
  status : String
  details : AnomalyDict
deriving DecidableEq, Repr

/-- The row `store_anomaly` inserts (database.py lines 198-214):
`start_time` is `datetime.now()` at the call, the value columns come from
the dict's keys with `.get` defaults, and the whole dict is serialized
into `details`. -/
def anomalyRowOf (now : ℤ) (assetType : String) (anomaly : AnomalyDict) :
    AnomalyRow :=
  { startTime := now, endTime := none,
    symbol := anomaly.symbol.getD "",
    assetType := assetType,
    anomalyType := anomaly.type.getD "",
    multiplier := anomaly.multiplier.getD 0,
    currentValue := (anomaly.currentVolume <|> anomaly.currentValue).getD 0,
    averageValue := (anomaly.averageVolume <|> anomaly.averageValue).getD 0,
    status := "detected",
    details := anomaly }

/-- `store_anomaly` (database.py lines 187-221): unconditional insert of
the row above, reporting `True`. -/
def storeAnomaly (now : ℤ) (assetType : String) (anomaly : AnomalyDict)
    (db : List AnomalyRow) : Bool × List AnomalyRow :=
  (true, db ++ [anomalyRowOf now assetType anomaly])

/-! ### Claim theorems: anomaly-detector warm-up, threshold, zero average -/

/-- C1 counterexample: after only 4 prior observations for symbol "B"
(no anomaly so far, window length 4), the next tick with volume 400
already triggers a volume-spike anomaly — the code's warm-up requires
only 4 prior observations, not the claimed 5. -/
theorem warmupWindow_counterexample :
    (cryptoRunVolumes [100, 100, 100, 100]).2 = []
    ∧ ((cryptoRunVolumes [100, 100, 100, 100]).1 "B").length = 4
    ∧ (cryptoProcessData (cryptoRunVolumes [100, 100, 100, 100]).1
        { pair := "B", v := 400, c := 1, s := 0 }).2 =
      some { type := "volume_spike", symbol := "B", currentVolume := 400,
             averageVolume := 100, multiplier := 4 } := by
  refine ⟨?_, ?_, ?_⟩ <;>
    norm_num [cryptoRunVolumes, cryptoProcessData, dequeAppend10,
      checkVolumeAnomaly, rollingAvg, cryptoVolumeThreshold]

/-- C1 (amended): both detectors perform no spike check until the
symbol's window including the just-appended observation has at least 5
entries — that is, until at least 4 prior observations exist — so no
anomaly is ever emitted with fewer than 4 prior observations (and 4
suffice, per the counterexample). -/
theorem warmupWindow_spec :
    (∀ (st : CryptoState) (d : CryptoAgg),
      (st d.pair).length < 4 → (cryptoProcessData st d).2 = none)
    ∧ (∀ (store : EqDataStore) (d : EqAgg),
      ((store d.symbol).map (fun e => e.recentVolumes.length)).getD 0 < 4 →
      (processAggregate store d).2 = (none, false)) := by
  constructor
  · intro st d hlen
    unfold cryptoProcessData
    split
    · rfl
    · simp only
      unfold checkVolumeAnomaly
      have hwin : (dequeAppend10 (st d.pair) ⟨d.v, d.c, d.s / 1000⟩).length < 5 := by
        unfold dequeAppend10
        simp only [List.length_drop, List.length_append, List.length_cons,
          List.length_nil]
        omega
      rw [if_pos (by simpa using hwin)]
  · intro store d hlen
    have hcheck : ∀ (entry : EqStoreEntry) (sym : String),
        entry.recentVolumes.length < 5 →
        checkForAnomalies entry sym d = .ok none := by
      intro entry sym h
      unfold checkForAnomalies
      rw [if_pos h]
    rw [processAggregate.eq_def]
    simp only
    rw [hcheck]
    simp only [lastTwenty, List.length_drop, List.length_append,
      List.length_cons, List.length_nil]
    cases hst : store d.symbol with
    | none => simp [hst]
    | some e =>
      rw [hst] at hlen
      simp only [Option.map_some', Option.getD_some] at hlen
      simp only [hst, Option.getD_some]
      omega

/-- C1 witness. -/
theorem warmupWindow_spec_witness :
    (cryptoProcessData (fun _ => []) { pair := "B", v := 100, c := 1, s := 0 }).2 = none
    ∧ (processAggregate (fun _ => none)
        { timestamp := 0, symbol := "A", openVal := 1, high := 1, low := 1,
          close := 1, volume := 100, vwap := 1, transactions := 0 }).2 =
      (none, false) :=
  ⟨warmupWindow_spec.1 (fun _ => []) _ (by decide),
   warmupWindow_spec.2 (fun _ => none) _ (by decide)⟩

/-- C2 counterexample: on the equities path, the 6th tick of
`[100,100,100,100,100,300]` has 5 prior observations with mean 100 > 0
and ratio 300/100 = 3, which meets the claimed `>= 3.0` condition — yet
no anomaly is emitted, because the code fires only when the current
volume strictly exceeds 3 times the rolling average. -/
theorem volumeSpikeThreshold_counterexample :
    rollingAvg [100, 100, 100, 100, 100, 300] = 100
    ∧ (3 : ℚ) ≤ 300 / 100
    ∧ (eqRunVolumes [100, 100, 100, 100, 100, 300]).2.1 = []
    ∧ (eqRunVolumes [100, 100, 100, 100, 100, 300]).2.2 =
        [false, false, false, false, false, false] := by
  refine ⟨?_, by norm_num, ?_, ?_⟩ <;>
    norm_num [eqRunVolumes, processAggregate.eq_def, checkForAnomalies,
      lastTwenty, rollingAvg]

/-- C2 (amended): with sufficient history and a positive rolling
average, the crypto path emits iff the multiplier is at least the crypto
threshold 2.0 (a non-strict comparison), while the equities path emits
iff the current volume strictly exceeds 3 times the rolling average; the
sequence `[100,100,100,100,100,400]` still triggers exactly one event of
multiplier 4.0 on each path. -/
theorem volumeSpikeThreshold_spec :
    (∀ (sym : String) (window : List CryptoObs) (cur : ℚ),
      5 ≤ (window.map (fun x => x.volume)).length →
      0 < rollingAvg (window.map (fun x => x.volume)) →
      ((checkVolumeAnomaly sym window cur).isSome ↔
        cryptoVolumeThreshold ≤ cur / rollingAvg (window.map (fun x => x.volume))))
    ∧ (∀ (entry : EqStoreEntry) (sym : String) (d : EqAgg),
      5 ≤ entry.recentVolumes.length →
      0 < rollingAvg entry.recentVolumes →
      ((∃ a, checkForAnomalies entry sym d = .ok (some a)) ↔
        rollingAvg entry.recentVolumes * 3 < d.volume))
    ∧ (eqRunVolumes [100, 100, 100, 100, 100, 400]).2.1.map (fun a => a.multiplier) = [4]
    ∧ (cryptoRunVolumes [100, 100, 100, 100, 100, 400]).2.map (fun a => a.multiplier) = [4] := by
  refine ⟨?_, ?_, ?_, ?_⟩
  · intro sym window cur h5 hpos
    unfold checkVolumeAnomaly
    rw [if_neg (by omega), if_pos hpos]
    by_cases hth :
        cryptoVolumeThreshold ≤ cur / rollingAvg (window.map (fun x => x.volume)) <;>
      simp [hth, ge_iff_le]
  · intro entry sym d h5 hpos
    unfold checkForAnomalies
    rw [if_neg (by omega)]
    by_cases hgt : rollingAvg entry.recentVolumes * 3 < d.volume <;>
      simp [hgt, ne_of_gt hpos, gt_iff_lt]
  · norm_num [eqRunVolumes, processAggregate.eq_def, checkForAnomalies,
      lastTwenty, rollingAvg]
  · norm_num [cryptoRunVolumes, cryptoProcessData, checkVolumeAnomaly,
      dequeAppend10, rollingAvg, cryptoVolumeThreshold]

/-- C2 witness. -/
theorem volumeSpikeThreshold_spec_witness :
    ((checkVolumeAnomaly "B"
        [⟨100, 1, 0⟩, ⟨100, 1, 0⟩, ⟨100, 1, 0⟩, ⟨100, 1, 0⟩, ⟨100, 1, 0⟩] 400).isSome ↔
      cryptoVolumeThreshold ≤ 400 / rollingAvg
        (List.map (fun x : CryptoObs => x.volume)
          [⟨100, 1, 0⟩, ⟨100, 1, 0⟩, ⟨100, 1, 0⟩, ⟨100, 1, 0⟩, ⟨100, 1, 0⟩]))
    ∧ ((∃ a, checkForAnomalies
          { recentPrices := [1, 1, 1, 1, 1], recentVolumes := [100, 100, 100, 100, 100],
            lastPrice := 0, lastVolume := 0 } "A"
          { timestamp := 0, symbol := "A", openVal := 1, high := 1, low := 1,
            close := 1, volume := 400, vwap := 1, transactions := 0 } = .ok (some a)) ↔
        rollingAvg [100, 100, 100, 100, 100] * 3 < (400 : ℚ)) :=
  ⟨volumeSpikeThreshold_spec.1 "B" _ 400 (by norm_num) (by norm_num [rollingAvg]),
   volumeSpikeThreshold_spec.2.1 _ "A" _ (by norm_num) (by norm_num [rollingAvg])⟩

/-- C5 counterexample: on the equities path, after four zero-volume
ticks the prior window `[0,0,0,0]` has mean zero; the next tick with
volume 100 does evaluate the division `current_volume / avg_volume`
(raising `ZeroDivisionError`, recorded by the raised flag of the 5th
tick) — the zero-average case is not skipped before dividing on this
path, though no anomaly is emitted. -/
theorem zeroAverageGuard_counterexample :
    rollingAvg [0, 0, 0, 0, 100] = 0
    ∧ (eqRunVolumes [0, 0, 0, 0, 100]).2.1 = []
    ∧ (eqRunVolumes [0, 0, 0, 0, 100]).2.2 = [false, false, false, false, true] := by
  refine ⟨?_, ?_, ?_⟩ <;>
    norm_num [eqRunVolumes, processAggregate.eq_def, checkForAnomalies,
      lastTwenty, rollingAvg]

/-- C5 (amended): the crypto path skips the check before dividing
whenever the rolling average is not positive, emitting nothing; the
equities path also never emits an anomaly on a zero-average window, but
it reaches the division — which raises `ZeroDivisionError` — exactly
when the window has at least 5 entries and the newest volume is
positive. -/
theorem zeroAverageGuard_spec :
    (∀ (sym : String) (window : List CryptoObs) (cur : ℚ),
      rollingAvg (window.map (fun x => x.volume)) ≤ 0 →
      checkVolumeAnomaly sym window cur = none)
    ∧ (∀ (entry : EqStoreEntry) (sym : String) (d : EqAgg),
      rollingAvg entry.recentVolumes = 0 →
      (∀ a, checkForAnomalies entry sym d ≠ .ok (some a))
      ∧ (checkForAnomalies entry sym d = .error .zeroDivision ↔
          5 ≤ entry.recentVolumes.length ∧ 0 < d.volume)) := by
  constructor
  · intro sym window cur havg
    unfold checkVolumeAnomaly
    by_cases h1 : (window.map (fun x => x.volume)).length < 5
    · rw [if_pos h1]
    · rw [if_neg h1, if_neg (not_lt.mpr havg)]
  · intro entry sym d havg
    unfold checkForAnomalies
    by_cases h1 : entry.recentVolumes.length < 5
    · rw [if_pos h1]
      refine ⟨fun a => by simp, ?_⟩
      constructor
      · intro h; exact absurd h (by simp)
      · rintro ⟨hle, -⟩; exact absurd hle (by omega)
    · rw [if_neg h1]
      by_cases hv : d.volume > rollingAvg entry.recentVolumes * 3
      · rw [if_pos hv, if_pos havg]
        refine ⟨fun a => by simp, ?_⟩
        constructor
        · intro _
          refine ⟨by omega, ?_⟩
          rw [havg] at hv
          simpa using hv
        · intro _; rfl
      · rw [if_neg hv]
        refine ⟨fun a => by simp, ?_⟩
        constructor
        · intro h; exact absurd h (by simp)
        · rintro ⟨-, hpos⟩
          exfalso
          apply hv
          rw [havg, zero_mul]
          exact hpos

/-- C5 witness. -/
theorem zeroAverageGuard_spec_witness :
    checkVolumeAnomaly "B" [⟨0, 1, 0⟩, ⟨0, 1, 0⟩, ⟨0, 1, 0⟩, ⟨0, 1, 0⟩, ⟨0, 1, 0⟩] 100 = none
    ∧ ((∀ a, checkForAnomalies
          { recentPrices := [1, 1, 1, 1, 1], recentVolumes := [0, 0, 0, 0, 100],
            lastPrice := 0, lastVolume := 0 } "A"
          { timestamp := 0, symbol := "A", openVal := 1, high := 1, low := 1,
            close := 1, volume := 100, vwap := 1, transactions := 0 } ≠ .ok (some a))
      ∧ (checkForAnomalies
          { recentPrices := [1, 1, 1, 1, 1], recentVolumes := [0, 0, 0, 0, 100],
            lastPrice := 0, lastVolume := 0 } "A"
          { timestamp := 0, symbol := "A", openVal := 1, high := 1, low := 1,
            close := 1, volume := 100, vwap := 1, transactions := 0 } = .error .zeroDivision ↔
          5 ≤ ([0, 0, 0, 0, 100] : List ℚ).length ∧ (0 : ℚ) < 100)) :=
  ⟨zeroAverageGuard_spec.1 "B" _ 100 (by norm_num [rollingAvg]),
   zeroAverageGuard_spec.2 _ "A" _ (by norm_num [rollingAvg])⟩

/-! ### Claim theorems: endpoint resolution -/

/-- A loaded configuration with every asset on the developer tier and no
endpoint overrides. -/
def cfgAllDeveloper : WebSocketConfig :=
  { assetSubscriptions := fun _ => .developer, envUrlOverride := fun _ => none }

/-- A loaded configuration with every asset on the basic tier and an
endpoint override configured for stocks. -/
def cfgBasicOverride : WebSocketConfig :=
  { assetSubscriptions := fun _ => .basic,
    envUrlOverride := fun a => if a = .stocks then some "wss://example.com/custom" else none }

/-- A loaded configuration with every asset on the starter tier and no
endpoint overrides. -/
def cfgAllStarter : WebSocketConfig :=
  { assetSubscriptions := fun _ => .starter, envUrlOverride := fun _ => none }

/-- C3 counterexample: stocks and forex resolve to the same (developer)
tier, both are granted WebSocket access, yet `get_websocket_url` returns
different URLs for them — the returned endpoint URL is not a function of
the tier alone, because the asset-class path segment is appended. -/
theorem urlTierFunction_counterexample :
    getSubscriptionTier cfgAllDeveloper .stocks = getSubscriptionTier cfgAllDeveloper .forex
    ∧ hasWebsocketAccess cfgAllDeveloper .stocks = true
    ∧ hasWebsocketAccess cfgAllDeveloper .forex = true
    ∧ getWebsocketUrl cfgAllDeveloper .stocks = .ok "wss://socket.polygon.io/stocks"
    ∧ getWebsocketUrl cfgAllDeveloper .forex = .ok "wss://socket.polygon.io/forex"
    ∧ "wss://socket.polygon.io/stocks" ≠ "wss://socket.polygon.io/forex" :=
  ⟨rfl, rfl, rfl, rfl, rfl, by decide⟩

/-- C3 (amended): absent endpoint overrides, for any two WebSocket-
enabled asset classes on the same tier, neither being the crypto/starter
special case, the resolved URLs share one base and differ only in the
appended asset-class path segment; the single special case maps a
crypto asset on the starter (delayed) tier to the developer (real-time)
base `wss://socket.polygon.io`, which differs from the starter base
`wss://delayed.polygon.io`. -/
theorem urlTierFunction_spec :
    (∀ (cfg : WebSocketConfig) (a b : AssetType),
      cfg.envUrlOverride a = none → cfg.envUrlOverride b = none →
      websocketEnabledTiers.contains (getSubscriptionTier cfg a) = true →
      getSubscriptionTier cfg b = getSubscriptionTier cfg a →
      ¬(a = .crypto ∧ getSubscriptionTier cfg a = .starter) →
      ¬(b = .crypto ∧ getSubscriptionTier cfg b = .starter) →
      ∃ base, getWebsocketUrl cfg a = .ok (base ++ "/" ++ a.value)
        ∧ getWebsocketUrl cfg b = .ok (base ++ "/" ++ b.value))
    ∧ (∀ (cfg : WebSocketConfig),
      cfg.envUrlOverride .crypto = none →
      getSubscriptionTier cfg .crypto = .starter →
      getWebsocketUrl cfg .crypto =
        .ok ("wss://socket.polygon.io" ++ "/" ++ AssetType.crypto.value))
    ∧ websocketBaseUrls .developer = some "wss://socket.polygon.io"
    ∧ websocketBaseUrls .starter = some "wss://delayed.polygon.io"
    ∧ "wss://socket.polygon.io" ≠ "wss://delayed.polygon.io" := by
  refine ⟨?_, ?_, rfl, rfl, by decide⟩
  · intro cfg a b ha hb hen htier hna hnb
    refine ⟨optionStr (websocketBaseUrls (getSubscriptionTier cfg a)), ?_, ?_⟩
    · unfold getWebsocketUrl
      rw [ha]
      simp only [hen, if_true, if_neg hna]
    · unfold getWebsocketUrl
      rw [hb]
      rw [htier] at hnb ⊢
      simp only [hen, if_true, if_neg hnb]
  · intro cfg h ht
    unfold getWebsocketUrl
    rw [h]
    simp [ht, getSubscriptionTier] at *
    simp [websocketEnabledTiers, ht, websocketBaseUrls, optionStr]

/-- C3 witness. -/
theorem urlTierFunction_spec_witness :
    (∃ base,
      getWebsocketUrl cfgAllDeveloper .stocks = .ok (base ++ "/" ++ AssetType.stocks.value)
      ∧ getWebsocketUrl cfgAllDeveloper .forex = .ok (base ++ "/" ++ AssetType.forex.value))
    ∧ getWebsocketUrl cfgAllStarter .crypto =
        .ok ("wss://socket.polygon.io" ++ "/" ++ AssetType.crypto.value) :=
  ⟨urlTierFunction_spec.1 cfgAllDeveloper .stocks .forex rfl rfl rfl rfl
      (by decide) (by decide),
   urlTierFunction_spec.2.1 cfgAllStarter rfl rfl⟩

/-- C4 counterexample: with an endpoint override configured for stocks,
a stocks account resolved to the bottom (basic) tier — which has no
WebSocket access at all — still receives a URL from
`get_websocket_url` instead of an error: the override is returned before
any tier check. -/
theorem bottomTierError_counterexample :
    getSubscriptionTier cfgBasicOverride .stocks = .basic
    ∧ hasWebsocketAccess cfgBasicOverride .stocks = false
    ∧ getWebsocketUrl cfgBasicOverride .stocks = .ok "wss://example.com/custom" :=
  ⟨rfl, rfl, rfl⟩

/-- C4 (amended): the basic tier is exactly the tier without WebSocket
access, and — provided no endpoint override is configured for the asset
class — `get_websocket_url` fails with the not-available error instead
of returning a URL whenever the resolved tier is basic. -/
theorem bottomTierError_spec :
    (∀ (cfg : WebSocketConfig) (a : AssetType),
      hasWebsocketAccess cfg a = false ↔ getSubscriptionTier cfg a = .basic)
    ∧ (∀ (cfg : WebSocketConfig) (a : AssetType),
      cfg.envUrlOverride a = none →
      getSubscriptionTier cfg a = .basic →
      getWebsocketUrl cfg a = .error (.notAvailable a.value "basic")) := by
  constructor
  · intro cfg a
    cases h : cfg.assetSubscriptions a <;>
      simp [hasWebsocketAccess, getSubscriptionTier, websocketEnabledTiers, h]
  · intro cfg a h ht
    unfold getWebsocketUrl
    rw [h]
    simp [ht, websocketEnabledTiers, SubscriptionTier.value]

/-- C4 witness. -/
theorem bottomTierError_spec_witness :
    (hasWebsocketAccess cfgBasicOverride .forex = false ↔
      getSubscriptionTier cfgBasicOverride .forex = .basic)
    ∧ getWebsocketUrl cfgBasicOverride .forex =
        .error (.notAvailable AssetType.forex.value "basic") :=
  ⟨bottomTierError_spec.1 cfgBasicOverride .forex,
   bottomTierError_spec.2 cfgBasicOverride .forex rfl rfl⟩

/-! ### Claim theorems: persistence and dispatch -/

/-- A sample backfill row. -/
def sampleOhlcv : OhlcvRow :=
  { openVal := 1, high := 1, low := 1, close := 1, volume := 1, vwap := none }

/-- A sample live-stream dict carrying a datetime timestamp of 0 and no
other keys. -/
def sampleDict : MarketDataDict :=
  { timestamp := .dt 0, c := none, close := none, v := none, volume := none,
    h := none, high := none, l := none, low := none, o := none,
    openField := none, vw := none, vwap := none }

/-- C6: the backfill upsert is idempotent on the (timestamp, symbol) key
— its second application is a no-op, and from a database without the key
two applications leave exactly one matching row — while the live-stream
write inserts unconditionally, so two writes of the same tick add two
matching rows. -/
theorem upsertIdempotent_spec :
    ∀ (db : List MarketRow) (ts : ℤ) (sym : String) (r : OhlcvRow)
      (now : ℤ) (atype : String) (data : MarketDataDict),
      (backfillInsertRow (backfillInsertRow db ts sym r) ts sym r =
        backfillInsertRow db ts sym r)
      ∧ (countKey db ts sym = 0 →
          countKey (backfillInsertRow (backfillInsertRow db ts sym r) ts sym r) ts sym = 1)
      ∧ (data.timestamp = .dt ts →
          countKey ((storeMarketData now atype sym data
              ((storeMarketData now atype sym data db).2)).2) ts sym =
            countKey db ts sym + 2) := by
  intro db ts sym r now atype data
  have hidem : backfillInsertRow (backfillInsertRow db ts sym r) ts sym r =
      backfillInsertRow db ts sym r := by
    unfold backfillInsertRow
    by_cases h : (db.any fun row => row.timestamp == ts && row.symbol == sym) = true
    · rw [if_pos h, if_pos h]
    · rw [if_neg h]
      rw [if_pos (by simp [List.any_append])]
  refine ⟨hidem, ?_, ?_⟩
  · intro h0
    rw [hidem]
    have hany : (db.any fun row => row.timestamp == ts && row.symbol == sym) = false := by
      by_contra hc
      rw [Bool.not_eq_false, List.any_eq_true] at hc
      obtain ⟨x, hx, hpx⟩ := hc
      have hmem : x ∈ db.filter (fun row => row.timestamp == ts && row.symbol == sym) :=
        List.mem_filter.mpr ⟨hx, hpx⟩
      rw [countKey, List.length_eq_zero] at h0
      rw [h0] at hmem
      exact absurd hmem (List.not_mem_nil x)
    rw [countKey, List.length_eq_zero] at h0
    unfold backfillInsertRow
    rw [hany]
    simp [countKey, List.filter_append, h0]
  · intro hts
    unfold storeMarketData tsExtract
    rw [hts]
    simp [countKey, List.filter_append]

/-- C6 witness. -/
theorem upsertIdempotent_spec_witness :
    countKey (backfillInsertRow
        (backfillInsertRow [] 0 "S" sampleOhlcv) 0 "S" sampleOhlcv) 0 "S" = 1
    ∧ countKey ((storeMarketData 7 "stocks" "S" sampleDict
        ((storeMarketData 7 "stocks" "S" sampleDict []).2)).2) 0 "S" =
      countKey [] 0 "S" + 2 :=
  ⟨(upsertIdempotent_spec [] 0 "S" sampleOhlcv 7 "stocks" sampleDict).2.1 rfl,
   (upsertIdempotent_spec [] 0 "S" sampleOhlcv 7 "stocks" sampleDict).2.2 rfl⟩

/-- C7: handlers are invoked in registration (list) order with the same
message — registering an extra handler makes the dispatch equal the
prior dispatch followed by one `handlerStep` of the new handler on the
same message — and a handler that raises on every invocation is
transparent: removing it from anywhere in the list leaves the dispatch
result unchanged, so it never prevents delivery to the handlers
registered after it. -/
theorem dispatchIsolation_spec :
    ∀ (α σ E : Type),
      (∀ (pre post : List (α → σ → Except E σ)) (hbad : α → σ → Except E σ)
        (d : α) (buffer : List α) (s : σ),
        (∀ x t, ∃ e, hbad x t = Except.error e) →
        dispatchData (pre ++ hbad :: post) d buffer s =
          dispatchData (pre ++ post) d buffer s)
      ∧ (∀ (handlers : List (α → σ → Except E σ)) (h : α → σ → Except E σ)
        (d : α) (buffer : List α) (s : σ),
        dispatchData (addDataHandler handlers h) d buffer s =
          ((dispatchData handlers d buffer s).1,
            handlerStep d (dispatchData handlers d buffer s).2 h)) := by
  intro α σ E
  constructor
  · intro pre post hbad d buffer s hb
    unfold dispatchData
    rw [List.foldl_append, List.foldl_append, List.foldl_cons]
    obtain ⟨e, he⟩ := hb d (pre.foldl (handlerStep d) s)
    rw [handlerStep.eq_def, he]
  · intro handlers h d buffer s
    unfold dispatchData addDataHandler
    rw [List.foldl_append, List.foldl_cons, List.foldl_nil]

/-- A handler that raises on every invocation. -/
def badHandler : ℚ → List ℚ → Except Unit (List ℚ) := fun _ _ => .error ()

/-- A well-behaved handler that appends each delivered message to its
store. -/
def collectHandler : ℚ → List ℚ → Except Unit (List ℚ) :=
  fun x st => .ok (st ++ [x])

/-- C7 witness: the always-raising first handler does not prevent the
second handler from receiving the message 5. -/
theorem dispatchIsolation_spec_witness :
    dispatchData [badHandler, collectHandler] (5 : ℚ) [] [] = ([5], [5]) := by
  have h := (dispatchIsolation_spec ℚ (List ℚ) Unit).1 [] [collectHandler]
    badHandler 5 [] [] (fun x t => ⟨(), rfl⟩)
  simp only [List.nil_append] at h
  rw [h]
  rfl

/-- C8 counterexample: on the starter tier, requesting crypto trades
`XT` fails with an error that names the offending code and the asset's
current tier ("starter") — not the tier that would be required, which is
developer. -/
theorem channelValidation_counterexample :
    getSubscriptionChannels cfgAllStarter .crypto ["BTC-USD"] (some ["XT"]) =
      .error (.unauthorizedDataType "XT" "crypto" "starter")
    ∧ tierRestrictedDataTypes "XT" = some .developer
    ∧ SubscriptionTier.developer.value ≠ "starter" :=
  ⟨rfl, rfl, by decide⟩

/-- C8 (amended): a channel code is available iff it is a known code of
the asset class and its required tier (when restricted) is at most the
resolved tier — unknown codes are never available; given WebSocket
access, a successful build validates every requested code as available
and returns the full codes-by-symbols token product, while any failure
is an error naming a requested unavailable code together with the asset
value and the asset's current (not required) tier value, with no token
list produced. -/
theorem channelValidation_spec :
    (∀ (cfg : WebSocketConfig) (a : AssetType) (code : String),
      ((getAvailableDataTypes cfg a false).any (fun p => p.1 == code) = true) ↔
        (code ∈ (dataTypesFor a).map Prod.fst ∧
          ∀ req, tierRestrictedDataTypes code = some req →
            tierIdx req ≤ tierIdx (getSubscriptionTier cfg a)))
    ∧ (∀ (cfg : WebSocketConfig) (a : AssetType) (symbols : List String)
        (dts : List String),
      hasWebsocketAccess cfg a = true →
      (∀ toks, getSubscriptionChannels cfg a symbols (some dts) = .ok toks →
        (∀ dt ∈ dts,
          (getAvailableDataTypes cfg a false).any (fun p => p.1 == dt) = true)
        ∧ toks = (dts.map (fun dt => symbols.map (fun s => dt ++ "." ++ s))).flatten)
      ∧ (∀ code av tv, getSubscriptionChannels cfg a symbols (some dts) =
            .error (.unauthorizedDataType code av tv) →
          code ∈ dts
          ∧ (getAvailableDataTypes cfg a false).any (fun p => p.1 == code) = false
          ∧ av = a.value ∧ tv = (getSubscriptionTier cfg a).value)) := by
  constructor
  · intro cfg a code
    unfold getAvailableDataTypes
    simp only [Bool.false_eq_true, if_false, List.any_eq_true, List.mem_filter,
      List.mem_map, beq_iff_eq]
    constructor
    · rintro ⟨p, ⟨hp, hf⟩, hcode⟩
      refine ⟨⟨p, hp, hcode⟩, ?_⟩
      intro req hreq
      rw [← hcode] at hreq
      rw [hreq] at hf
      simpa [tierMeetsRequirement] using hf
    · rintro ⟨⟨p, hp, hcode⟩, hreq⟩
      refine ⟨p, ⟨hp, ?_⟩, hcode⟩
      cases htr : tierRestrictedDataTypes p.1 with
      | none => simp
      | some req =>
        rw [← hcode] at hreq
        simpa [tierMeetsRequirement] using hreq req htr
  · intro cfg a symbols dts hacc
    unfold getSubscriptionChannels
    rw [hacc]
    simp only [if_true, Option.getD_some]
    cases hfind : dts.find?
        (fun dt => !((getAvailableDataTypes cfg a false).any (fun p => p.1 == dt))) with
    | none =>
      constructor
      · intro toks htoks
        refine ⟨?_, ?_⟩
        · intro dt hdt
          have := List.find?_eq_none.mp hfind dt hdt
          simpa using this
        · cases htoks
          rfl
      · intro code av tv herr
        cases herr
    | some dt =>
      constructor
      · intro toks htoks
        cases htoks
      · intro code av tv herr
        injection herr with h1
        injection h1 with hc hav htv
        subst hc hav htv
        refine ⟨List.mem_of_find?_eq_some hfind, ?_, rfl, rfl⟩
        have := List.find?_some hfind
        simpa using this

/-- C8 witness. -/
theorem channelValidation_spec_witness :
    (((getAvailableDataTypes cfgAllStarter .crypto false).any
        (fun p => p.1 == "XA") = true) ↔
      ("XA" ∈ (dataTypesFor .crypto).map Prod.fst ∧
        ∀ req, tierRestrictedDataTypes "XA" = some req →
          tierIdx req ≤ tierIdx (getSubscriptionTier cfgAllStarter .crypto)))
    ∧ ((∀ dt ∈ ["XA"],
        (getAvailableDataTypes cfgAllStarter .crypto false).any
          (fun p => p.1 == dt) = true)
      ∧ ["XA.BTC-USD"] = ((["XA"].map
          (fun dt => ["BTC-USD"].map (fun s => dt ++ "." ++ s))).flatten)) :=
  ⟨channelValidation_spec.1 cfgAllStarter .crypto "XA",
   (channelValidation_spec.2 cfgAllStarter .crypto ["BTC-USD"] ["XA"] rfl).1
     ["XA.BTC-USD"] rfl⟩

/-- C9: every stored anomaly row takes its `start_time` from the
wall-clock instant of the insertion, carries the serialized input dict
as `details`, and the detection timestamp inside the input dict affects
no column other than `details`. -/
theorem anomalyStartTime_spec :
    ∀ (now : ℤ) (atype : String) (anomaly : AnomalyDict) (db : List AnomalyRow)
      (t : Option String),
      storeAnomaly now atype anomaly db = (true, db ++ [anomalyRowOf now atype anomaly])
      ∧ (anomalyRowOf now atype anomaly).startTime = now
      ∧ (anomalyRowOf now atype anomaly).details = anomaly
      ∧ anomalyRowOf now atype { anomaly with timestamp := t } =
          { anomalyRowOf now atype anomaly with
            details := { anomaly with timestamp := t } } := by
  intro now atype anomaly db t
  exact ⟨rfl, rfl, rfl, rfl⟩

/-- A market-data dict whose timestamp is a string rejected by
`datetime.fromisoformat`. -/
def badTsDict : MarketDataDict :=
  { timestamp := .invalidStr, c := none, close := none, v := none, volume := none,
    h := none, high := none, l := none, low := none, o := none,
    openField := none, vw := none, vwap := none }

/-- A market-data dict with no price key and a negative volume. -/
def negVolumeDict : MarketDataDict :=
  { timestamp := .absent, c := none, close := none, v := some (-5), volume := none,
    h := none, high := none, l := none, low := none, o := none,
    openField := none, vw := none, vwap := none }

/-- C10 counterexample: a record whose timestamp string
`datetime.fromisoformat` rejects makes `store_market_data` report
failure and insert nothing — the function does reject this malformed
input. -/
theorem storeMarketData_counterexample :
    storeMarketData 0 "stocks" "AAPL" badTsDict [] = (false, []) := rfl

/-- C10 (amended): for every record whose timestamp entry is absent or a
value `fromisoformat` accepts, the call inserts exactly one row and
reports success, defaulting a missing price and volume to 0 (so
non-positive prices and volumes are persisted unchanged) and defaulting
an absent timestamp to the current wall-clock time; only a timestamp
string that `fromisoformat` rejects makes the call report failure
without inserting. -/
theorem storeMarketDefaults_spec :
    ∀ (now : ℤ) (atype sym : String) (data : MarketDataDict) (db : List MarketRow),
      data.timestamp ≠ .invalidStr →
      ∃ ts, tsExtract now data.timestamp = some ts
        ∧ storeMarketData now atype sym data db = (true, db ++ [{
            timestamp := ts, symbol := sym, assetType := atype,
            price := (data.c <|> data.close).getD 0,
            volume := (data.v <|> data.volume).getD 0,
            high := data.h <|> data.high, low := data.l <|> data.low,
            openCol := data.o <|> data.openField, vwap := data.vw <|> data.vwap,
            rawData := data }])
        ∧ (data.timestamp = .absent → ts = now) := by
  intro now atype sym data db hts
  cases h : data.timestamp with
  | absent => exact ⟨now, rfl, by unfold storeMarketData; rw [h]; rfl, fun _ => rfl⟩
  | dt tval =>
    exact ⟨tval, rfl, by unfold storeMarketData; rw [h]; rfl, fun habs => by cases habs⟩
  | validStr tval =>
    exact ⟨tval, rfl, by unfold storeMarketData; rw [h]; rfl, fun habs => by cases habs⟩
  | invalidStr => exact absurd h hts

/-- C10 witness: a record with no price key and a negative volume is
inserted with price 0 and volume -5, the absent timestamp defaulting to
the wall clock. -/
theorem storeMarketDefaults_spec_witness :
    ∃ ts, tsExtract 3 negVolumeDict.timestamp = some ts
      ∧ storeMarketData 3 "stocks" "AAPL" negVolumeDict [] = (true, [] ++ [{
          timestamp := ts, symbol := "AAPL", assetType := "stocks",
          price := (negVolumeDict.c <|> negVolumeDict.close).getD 0,
          volume := (negVolumeDict.v <|> negVolumeDict.volume).getD 0,
          high := negVolumeDict.h <|> negVolumeDict.high,
          low := negVolumeDict.l <|> negVolumeDict.low,
          openCol := negVolumeDict.o <|> negVolumeDict.openField,
          vwap := negVolumeDict.vw <|> negVolumeDict.vwap,
          rawData := negVolumeDict }])
      ∧ (negVolumeDict.timestamp = .absent → ts = 3) :=
  storeMarketDefaults_spec 3 "stocks" "AAPL" negVolumeDict [] (by decide)
